import Mathlib

/-!
Verification development for the PRISM liveness-detection engine
(`app/main.py`).  The engine state, configuration, per-frame pipeline
(`process_frame`), the analyzers and the fusion scorer are embedded as
executable Lean definitions over `ℚ`.  Calls into numpy / scipy / cv2 that
leave exact rational arithmetic (standard deviation, square root, Butterworth
filtering, Welch PSD, FFT magnitudes, peak finding, image statistics) are
modelled as fields of an explicit `Ops` record: every such field stands for
one library call named in its doc comment, and every definition below is
parameterised by the same `Ops` value, so the control flow, buffer updates,
thresholds and score arithmetic of the Python source are reproduced exactly.

Conventions:
* Python floats are `ℚ`; float literals such as `1e-6`, `0.35` appear as the
  exact rationals `1/1000000`, `7/20`.
* `round(x, n)` is `pyRound n x` (nearest, ties up; Python uses ties-to-even,
  and no claim below depends on tie behaviour).
* `int(x)` is `pyInt x` (truncation toward zero).
* a `collections.deque` with `maxlen = m` is a `List` together with
  `dequePush m`, which appends on the right and evicts on the left.
* images are abstract: an `Img` records its shape `(h, w, c)` plus an
  opaque content handle `iid` that the `Ops` fields may inspect.
-/

/-- Mean of a list of rationals, as `np.mean` (guarded call sites only). -/
def listMean (xs : List ℚ) : ℚ := xs.sum / xs.length

/-- Append on the right, evicting on the left past capacity `m`
(`collections.deque(maxlen = m)` append semantics). -/
def dequePush (m : ℕ) (xs : List α) (x : α) : List α :=
  let ys := xs ++ [x]
  ys.drop (ys.length - m)

/-- Last `n` elements of a list (`xs[-n:]`). -/
def lastN (n : ℕ) (xs : List α) : List α := xs.drop (xs.length - n)

/-- Python `int(x)`: truncation toward zero. -/
def pyInt (x : ℚ) : ℤ := Int.tdiv x.num (x.den : ℤ)

/-- Python `round(x, n)` to `n` decimal places (nearest; ties rounded up,
whereas CPython rounds ties to even — no property proved here depends on
the tie case). -/
def pyRound (n : ℕ) (x : ℚ) : ℚ := ((round (x * 10 ^ n) : ℤ) : ℚ) / 10 ^ n

/-- Index of the first maximal element (`np.argmax`), via an accumulator. -/
def argmaxAux (best : ℕ) (bestVal : ℚ) (i : ℕ) : List ℚ → ℕ
  | [] => best
  | x :: xs => if bestVal < x then argmaxAux i x (i + 1) xs else argmaxAux best bestVal (i + 1) xs

/-- `np.argmax` on a list of rationals; `0` on the empty list. -/
def argmaxIdx : List ℚ → ℕ
  | [] => 0
  | x :: xs => argmaxAux 0 x 1 xs

/-- Abstract BGR image block: shape `(h, w, c)` plus an opaque content
handle `iid` read by the image-statistics operations. -/
structure Img where
  h : ℕ
  w : ℕ
  c : ℕ
  iid : ℕ

/-- `np.ndarray.size` of an image: total element count. -/
def Img.size (im : Img) : ℕ := im.h * im.w * im.c

/-- The empty face image `np.empty((0, 0, 3), dtype=np.uint8)` substituted by
`process_frame` when `face_img is None`. -/
def emptyImg : Img := { h := 0, w := 0, c := 3, iid := 0 }

/-- Abstract grayscale image (result of `cv2.cvtColor(..., COLOR_BGR2GRAY)`). -/
structure Gray where
  h : ℕ
  w : ℕ
  gid : ℕ

/-- Numeric and image kernels from numpy / scipy / cv2 used by the engine.
Each field stands for exactly one library computation; the engine code is
embedded relative to an arbitrary `Ops` value. -/
structure Ops where
  /-- `np.sqrt` on a scalar. -/
  sqrtQ : ℚ → ℚ
  /-- `np.std` of a 1-D array. -/
  npStd : List ℚ → ℚ
  /-- `scipy.signal.detrend` (linear detrend). -/
  detrend : List ℚ → List ℚ
  /-- `scipy.signal.butter(3, [low, high], btype="bandpass")` followed by
  `scipy.signal.filtfilt` applied to the signal. -/
  butterFiltfilt : ℚ → ℚ → List ℚ → List ℚ
  /-- PSD values of `scipy.signal.welch(sig, fs, nperseg, noverlap = nperseg/2,
  window = "hamming")`; the frequency grid `k * fs / nperseg`,
  `k = 0 .. nperseg/2`, is computed deterministically at the call site. -/
  welchPsd : ℚ → ℕ → List ℚ → List ℚ
  /-- `scipy.signal.find_peaks(sig, distance, prominence)`: indices of peaks. -/
  findPeaks : ℤ → ℚ → List ℚ → List ℕ
  /-- `scipy.stats.entropy` of the positive bins of
  `np.histogram(rr, bins=10, density=True)`. -/
  histEntropy : List ℚ → ℚ
  /-- `np.abs(np.fft.rfft(sig))`. -/
  rfftAbs : List ℚ → List ℚ
  /-- `cv2.cvtColor(img, COLOR_BGR2GRAY)`. -/
  toGray : Img → Gray
  /-- `np.mean(gray)` (mean luminance). -/
  meanGray : Gray → ℚ
  /-- `cv2.Laplacian(gray, CV_64F).var()` (blur variance). -/
  lapVar : Gray → ℚ
  /-- `np.mean(gray <= 5)` (dark-clip fraction). -/
  lowClipPct : Gray → ℚ
  /-- `np.mean(gray >= 250)` (bright-clip fraction). -/
  highClipPct : Gray → ℚ
  /-- `np.mean(cv2.absdiff(prev, cur))` (motion score). -/
  absdiffMean : Gray → Gray → ℚ
  /-- `np.mean(roi[:, :, 1])` (mean of the green channel of a BGR ROI). -/
  meanChannel1 : Img → ℚ
  /-- per-frame mean RGB of `cv2.cvtColor(roi, COLOR_BGR2RGB)`:
  `np.mean(roi_rgb.reshape(-1, 3), axis=0)`. -/
  meanRGB : Img → ℚ × ℚ × ℚ
  /-- `np.mean(face_img, axis=(0, 1))` as `(blue, green, red)`. -/
  avgBGR : Img → ℚ × ℚ × ℚ
  /-- variance of the Laplacian of the Gaussian-blurred blue channel
  (`_check_physics_sss`). -/
  sssVarB : Img → ℚ
  /-- variance of the Laplacian of the Gaussian-blurred red channel
  (`_check_physics_sss`). -/
  sssVarR : Img → ℚ
  /-- `np.max(log1p(|fftshift(fft2(gray))|))`, the normalisation denominator
  of `_check_moire_pattern`. -/
  moireLogMagMax : Img → ℚ
  /-- `np.max(masked_mag)` after normalising and zeroing the 20x20 DC box. -/
  moireMaskedPeak : Img → ℚ
  /-- `np.mean(masked_mag[masked_mag > 0])` of the same masked magnitude. -/
  moireMaskedMean : Img → ℚ
  /-- mean local standard deviation from 5x5 box-filtered moments
  (`_check_screen_texture`). -/
  avgLocalStd : Img → ℚ

/-- `PrismConfig` (defaults exactly as in the dataclass; float defaults are
exact rationals). -/
structure PrismConfig where
  fps : ℚ := 30
  buffer_size : ℕ := 90
  rppg_method : String := "POS"
  rppg_min_window_seconds : ℚ := 3
  enable_quality_gate : Bool := true
  max_motion_score : ℚ := 20
  min_blur_var_laplacian : ℚ := 15
  max_exposure_clip_pct : ℚ := 7/20
  min_roi_size : ℕ := 20
  enable_temporal_xcorr : Bool := true
  temporal_xcorr_min_corr : ℚ := 1/20
  temporal_xcorr_min_lag_ms : ℚ := 0
  temporal_xcorr_max_lag_ms : ℚ := 800
  min_bpm : ℤ := 40
  max_bpm : ℤ := 200
  min_signal_quality : ℚ := 1/10
  sss_ratio_threshold : ℚ := 3/4
  chroma_sensitivity : ℚ := 9/10
  temporal_delay_min_ms : ℚ := 0
  temporal_delay_max_ms : ℚ := 600
  hrv_min_rmssd : ℚ := 3
  hrv_entropy_threshold : ℚ := 1/10
  moire_threshold : ℚ := 2/25
  bpm_stability_threshold : ℚ := 20
  min_signal_variance : ℚ := 2/5
  screen_color_uniformity_threshold : ℚ := 3/20
  weight_physics_sss : ℚ := 10
  weight_chroma : ℚ := 25
  weight_rppg : ℚ := 25
  weight_hrv : ℚ := 10
  weight_temporal : ℚ := 20
  weight_moire : ℚ := 5

/-- `HRVMetrics` dataclass. -/
structure HRVMetrics where
  rmssd : ℚ := 0
  sdnn : ℚ := 0
  entropy : ℚ := 0
  is_biologically_valid : Bool := false

/-- `RPPGResult` dataclass. -/
structure RPPGResult where
  bpm : ℤ := 0
  signal_quality : ℚ := 0
  raw_confidence : ℚ := 0
  is_valid : Bool := false
  hrv : HRVMetrics := {}

/-- `PhysicsResult` dataclass (`sss_ratio_q` models the `sss_ratio` field). -/
structure PhysicsResult where
  sss_passed : Bool := false
  sss_ratio_q : ℚ := 0
  red_variance : ℚ := 0
  blue_variance : ℚ := 0

/-- `TemporalResult` dataclass. -/
structure TemporalResult where
  delay_ms : ℚ := 0
  is_biological : Bool := false
  response_detected : Bool := false
  xcorr_delay_ms : ℚ := 0
  xcorr_strength : ℚ := 0
  xcorr_passed : Bool := false

/-- `MoireResult` dataclass. -/
structure MoireResult where
  is_screen : Bool := false
  moire_score : ℚ := 0

/-- `StaticImageResult` dataclass: defaults to static until proven otherwise. -/
structure StaticImageResult where
  is_static : Bool := true
  signal_variance : ℚ := 0
  is_alive : Bool := false

/-- The quality-feature dict of `_compute_quality_features`; the default
values are the record returned on empty input. -/
structure QualityFeatures where
  motion_score : ℚ := 0
  blur_var : ℚ := 0
  exposure_clip_pct : ℚ := 1
  roi_min_dim : ℚ := 0

/-- The diagnostics dict built by `_compute_fusion_score` and `process_frame`.
Keys that are present only on some paths are `Option` fields (`none` models a
missing key); `physics_partial_credit` models the key `physics_partial`, and
`screen_flicker_ratio_q` the key `screen_flicker_ratio`. -/
structure Details where
  bpm : ℤ := 0
  bpm_signal_quality : ℚ := 0
  hrv_rmssd : ℚ := 0
  hrv_entropy : ℚ := 0
  physics_passed : Bool := false
  sss_ratio_q : ℚ := 0
  chroma_passed : Bool := false
  temporal_delay_ms : ℚ := 0
  temporal_biological : Bool := false
  temporal_xcorr_delay_ms : ℚ := 0
  temporal_xcorr_strength : ℚ := 0
  temporal_xcorr_passed : Bool := false
  moire_detected : Bool := false
  moire_score : ℚ := 0
  rppg_contribution : Option ℚ := none
  rppg_warmup_bonus : Option ℚ := none
  hrv_contribution : Option ℚ := none
  physics_contribution : Option ℚ := none
  physics_partial_credit : Option ℚ := none
  chroma_contribution : Option ℚ := none
  temporal_contribution : Option ℚ := none
  moire_penalty : Option ℚ := none
  moire_contribution : Option ℚ := none
  bpm_stability_std : Option ℚ := none
  bpm_stability_penalty : Option ℚ := none
  signal_variance : ℚ := 0
  is_static_image : Bool := true
  lighting_unstable : Bool := false
  lighting_penalty : Option ℚ := none
  static_image_penalty : Option ℚ := none
  alive_bonus : Option ℚ := none
  texture_uniformity : Option ℚ := none
  screen_texture_detected : Option Bool := none
  screen_texture_penalty : Option ℚ := none
  screen_flicker_detected : Bool := false
  screen_flicker_ratio_q : ℚ := 0
  screen_flicker_penalty : Option ℚ := none
  forced_false_reason : Option String := none
  rppg_method : String := ""
  quality_gate : Bool := true
  quality_gate_reason : String := ""
  motion_score : Option ℚ := none
  blur_var : Option ℚ := none
  exposure_clip_pct : Option ℚ := none
  roi_min_dim : Option ℚ := none

/-- `LivenessResult` dataclass (its `details` dict is the `Details` record). -/
structure LivenessResult where
  is_human : Bool := false
  confidence : ℚ := 0
  bpm : ℤ := 0
  hrv_score : ℚ := 0
  signal_quality : ℚ := 0
  details : Details := {}

/-- The mutable state of a `PrismEngine` instance.  Fields mirror the
attributes set in `__init__`; `prev_roi_gray`, `last_face_img` and
`lighting_unstable` model the dynamically created attributes
`_prev_roi_gray`, `_last_face_img`, `_lighting_unstable` (`none` / `false`
standing for a missing attribute, matching the `getattr` defaults). -/
structure Engine where
  config : PrismConfig
  green_signal_buffer : List ℚ
  rgb_signal_buffer : List (ℚ × ℚ × ℚ)
  temporal_buffer : List (ℚ × ℚ × ℚ)
  luminance_buffer : List (ℚ × ℚ × String)
  last_bpm : ℤ
  bpm_history : List (ℚ × ℚ)
  last_screen_color : Option String
  last_color_change_time : ℚ
  rr_intervals : List ℚ
  raw_bpm_history : List ℚ
  color_change_timestamps : List (String × ℚ)
  prev_roi_gray : Option Gray
  last_face_img : Option Img
  lighting_unstable : Bool

/-- `PrismEngine.__init__`. -/
def mkEngine (config : PrismConfig) : Engine :=
  { config := config
    green_signal_buffer := []
    rgb_signal_buffer := []
    temporal_buffer := []
    luminance_buffer := []
    last_bpm := 0
    bpm_history := []
    last_screen_color := none
    last_color_change_time := 0
    rr_intervals := []
    raw_bpm_history := []
    color_change_timestamps := []
    prev_roi_gray := none
    last_face_img := none
    lighting_unstable := false }

/-- `PrismEngine.reset`: exactly the fields cleared by the source.  Note that
`rgb_signal_buffer`, `temporal_buffer`, `raw_bpm_history`, `_prev_roi_gray`,
`_last_face_img` and `_lighting_unstable` are left untouched, as in the code. -/
def Engine.reset (e : Engine) : Engine :=
  { e with
    green_signal_buffer := []
    luminance_buffer := []
    bpm_history := []
    rr_intervals := []
    color_change_timestamps := []
    last_bpm := 0
    last_screen_color := none
    last_color_change_time := 0 }

/-- Python `str.upper()` (ASCII inputs only in this code base), written over
the character list so that it evaluates by kernel reduction. -/
def strUpper (s : String) : String := String.mk (s.data.map Char.toUpper)

/-- `_rgb_from_screen_color`. -/
def rgbFromScreenColor (screen_color : String) : ℚ × ℚ × ℚ :=
  let c := strUpper screen_color
  if c = "RED" then (1, 0, 0)
  else if c = "GREEN" then (0, 1, 0)
  else if c = "BLUE" then (0, 0, 1)
  else (1, 1, 1)

/-- `(self.config.rppg_method or "GREEN").upper()`. -/
def methodOf (cfg : PrismConfig) : String :=
  strUpper (if cfg.rppg_method = "" then "GREEN" else cfg.rppg_method)

/-- Per-channel normalisation of `_extract_bvp_from_rgb`:
`mean_rgb = np.where(mean <= 1e-6, 1.0, mean)` then `C = window/mean - 1`. -/
def normChannel (xs : List ℚ) : List ℚ :=
  let m0 := listMean xs
  let m := if m0 ≤ 1/1000000 then 1 else m0
  xs.map (fun v => v / m - 1)

/-- `_extract_bvp_from_rgb`: GREEN / CHROM / POS combinations of the
mean-normalised channels. -/
def extractBvpFromRgb (O : Ops) (cfg : PrismConfig) (rgb_window : List (ℚ × ℚ × ℚ)) : List ℚ :=
  let method := methodOf cfg
  let r := normChannel (rgb_window.map (fun p => p.1))
  let g := normChannel (rgb_window.map (fun p => p.2.1))
  let b := normChannel (rgb_window.map (fun p => p.2.2))
  if method = "GREEN" then g
  else if method = "CHROM" then
    let x := List.zipWith (fun ri gi => 3 * ri - 2 * gi) r g
    let y := List.zipWith (fun si bi => si - (3/2) * bi)
      (List.zipWith (fun ri gi => (3/2) * ri + gi) r g) b
    let std_y := O.npStd y
    let alpha := if 0 < std_y then O.npStd x / (std_y + 1/10000000000) else 1
    List.zipWith (fun xi yi => xi - alpha * yi) x y
  else
    let x := List.zipWith (fun gi bi => gi - bi) g b
    let y := List.zipWith (fun si bi => si + bi)
      (List.zipWith (fun ri gi => -2 * ri + gi) r g) b
    let std_y := O.npStd y
    let alpha := if 0 < std_y then O.npStd x / (std_y + 1/10000000000) else 1
    List.zipWith (fun xi yi => xi + alpha * yi) x y

/-- Differences of consecutive peak indices (`np.diff(peaks)` over `ℤ`). -/
def diffNat : List ℕ → List ℤ
  | a :: b :: rest => ((b : ℤ) - (a : ℤ)) :: diffNat (b :: rest)
  | _ => []

/-- Differences of consecutive rationals (`np.diff`). -/
def diffQ : List ℚ → List ℚ
  | a :: b :: rest => (b - a) :: diffQ (b :: rest)
  | _ => []

/-- `_extract_hrv`: RR intervals from detected peaks of the filtered BVP,
then RMSSD / SDNN / Shannon entropy and the biological-validity flag. -/
def extractHrv (O : Ops) (cfg : PrismConfig) (bvp_signal : List ℚ) : HRVMetrics :=
  if bvp_signal.length < 30 then {}
  else
    let peaks := O.findPeaks (pyInt (cfg.fps * (2/5))) ((3/10) * O.npStd bvp_signal) bvp_signal
    if peaks.length < 3 then {}
    else
      let rr0 := (diffNat peaks).map (fun d => (d : ℚ) * (1000 / cfg.fps))
      let rr := rr0.filter (fun v => decide (333 < v) && decide (v < 1500))
      if rr.length < 2 then {}
      else
        let successive_diffs := diffQ rr
        let rmssd := O.sqrtQ (listMean (successive_diffs.map (fun x => x ^ 2)))
        let sdnn := O.npStd rr
        let hrv_entropy := O.histEntropy rr
        { rmssd := pyRound 2 rmssd
          sdnn := pyRound 2 sdnn
          entropy := pyRound 3 hrv_entropy
          is_biologically_valid :=
            decide (cfg.hrv_min_rmssd ≤ rmssd) && decide (cfg.hrv_entropy_threshold ≤ hrv_entropy) }

/-- Detrend, z-score and Butterworth bandpass of `_get_heart_rate` (steps
1-3): the cutoffs `[0.75, 3.0] Hz / nyquist` are clamped into `(0.01, 0.99)`
before filtering. -/
def hrFiltered (O : Ops) (cfg : PrismConfig) (raw_signal : List ℚ) : List ℚ :=
  let detrended := O.detrend raw_signal
  let std := O.npStd detrended
  let normalized := detrended.map (fun v => (v - listMean detrended) / std)
  let nyquist := (1/2) * cfg.fps
  let low := max (1/100) (min ((3/4) / nyquist) (99/100))
  let high := max (low + 1/100) (min (3 / nyquist) (99/100))
  O.butterFiltfilt low high normalized

/-- Welch PSD of the filtered signal paired with its frequency grid,
restricted to the valid heart-rate band `[0.75, 3.0] Hz` (steps 4-5). -/
def hrValidPairs (O : Ops) (cfg : PrismConfig) (filtered_signal : List ℚ) : List (ℚ × ℚ) :=
  let nperseg := min filtered_signal.length 128
  let psd := O.welchPsd cfg.fps nperseg filtered_signal
  let freqs := (List.range (nperseg / 2 + 1)).map (fun k => (k : ℚ) * cfg.fps / (nperseg : ℚ))
  (freqs.zip psd).filter (fun p => decide ((3/4 : ℚ) ≤ p.1) && decide (p.1 ≤ 3))

/-- The dominant in-band frequency (step 6): `np.argmax` over the valid PSD. -/
def hrPeakFreq (validPairs : List (ℚ × ℚ)) : ℚ :=
  (validPairs.map (fun p => p.1)).getD (argmaxIdx (validPairs.map (fun p => p.2))) 0

/-- The PSD value at the dominant in-band frequency. -/
def hrPeakPower (validPairs : List (ℚ × ℚ)) : ℚ :=
  (validPairs.map (fun p => p.2)).getD (argmaxIdx (validPairs.map (fun p => p.2))) 0

/-- Mean PSD outside the ±2-bin guard around the peak; `1e-10` when the
guard covers everything (step 7, the `noise_mask` computation). -/
def hrNoisePower (validPairs : List (ℚ × ℚ)) : ℚ :=
  let peak_idx := argmaxIdx (validPairs.map (fun p => p.2))
  let noise_vals := (((validPairs.map (fun p => p.2)).enum).filter
    (fun p => decide (p.1 + 2 < peak_idx) || decide (peak_idx + 3 ≤ p.1))).map (fun p => p.2)
  if 0 < noise_vals.length then listMean noise_vals else 1/10000000000

/-- `signal_quality = min(1, snr / 10)` with `snr = peak / (noise + 1e-10)`. -/
def hrQuality (validPairs : List (ℚ × ℚ)) : ℚ :=
  min 1 (hrPeakPower validPairs / (hrNoisePower validPairs + 1/10000000000) / 10)

/-- Quality-weighted smoothing over the (just-appended) BPM history
(step 8); the `else` arm is the source's dead `len == 0` fallback. -/
def hrSmoothed (bh : List (ℚ × ℚ)) (current_bpm : ℚ) : ℚ :=
  if 0 < bh.length then
    ((bh.map (fun p => p.1 * p.2)).sum) / ((bh.map (fun p => p.2)).sum + 1/10000000000)
  else current_bpm

/-- Main arm of `_get_heart_rate` (after all early returns): BPM smoothing,
quality, HRV and validity, together with the updates of `bpm_history`,
`last_bpm` and `raw_bpm_history`. -/
def hrMain (O : Ops) (e : Engine) (raw_signal : List ℚ) : RPPGResult × Engine :=
  let cfg := e.config
  let filtered_signal := hrFiltered O cfg raw_signal
  let vp := hrValidPairs O cfg filtered_signal
  let signal_quality := hrQuality vp
  let current_bpm := hrPeakFreq vp * 60
  let bh := dequePush 10 e.bpm_history (current_bpm, signal_quality)
  let lb := pyInt (hrSmoothed bh current_bpm)
  ({ bpm := lb
     signal_quality := pyRound 3 signal_quality
     raw_confidence := pyRound 3 (hrPeakPower vp)
     is_valid :=
       decide (cfg.min_bpm ≤ lb) && decide (lb ≤ cfg.max_bpm) &&
         decide (cfg.min_signal_quality ≤ signal_quality)
     hrv := extractHrv O cfg filtered_signal },
   { e with
     bpm_history := bh
     last_bpm := lb
     raw_bpm_history := dequePush 30 e.raw_bpm_history current_bpm })

/-- Common tail of `_get_heart_rate` once a raw signal has been selected:
the window-length, zero-std and empty-band early returns, then `hrMain`. -/
def hrCore (O : Ops) (e : Engine) (raw_signal : List ℚ) : RPPGResult × Engine :=
  if (raw_signal.length : ℚ) / e.config.fps < e.config.rppg_min_window_seconds then ({}, e)
  else if O.npStd (O.detrend raw_signal) = 0 then ({}, e)
  else if (hrValidPairs O e.config (hrFiltered O e.config raw_signal)).length = 0 then ({}, e)
  else hrMain O e raw_signal

/-- `_get_heart_rate`: source-buffer selection (GREEN buffer vs BVP of the
RGB buffer) with the warmup early returns, then `hrCore`. -/
def getHeartRate (O : Ops) (e : Engine) : RPPGResult × Engine :=
  let cfg := e.config
  if methodOf cfg = "GREEN" then
    if e.green_signal_buffer.length < cfg.buffer_size then ({}, e)
    else hrCore O e e.green_signal_buffer
  else
    if e.rgb_signal_buffer.length < cfg.buffer_size then ({}, e)
    else hrCore O e (extractBvpFromRgb O cfg e.rgb_signal_buffer)

/-- `_check_physics_sss`: blue/red Laplacian sharpness ratio with the
`var_r` clamp at `0.001`. -/
def checkPhysicsSss (O : Ops) (cfg : PrismConfig) (face_img : Option Img) : PhysicsResult :=
  match face_img with
  | none => {}
  | some img =>
    if img.size = 0 then {}
    else
      let var_b := O.sssVarB img
      let var_r0 := O.sssVarR img
      let var_r := if var_r0 < 1/1000 then 1/1000 else var_r0
      let ratioQ := var_b / var_r
      { sss_ratio_q := pyRound 4 ratioQ
        blue_variance := pyRound 2 var_b
        red_variance := pyRound 2 var_r
        sss_passed := decide (cfg.sss_ratio_threshold < ratioQ) }

/-- `timestamp_ms or (time.time() * 1000)`: Python `or` falls through to the
wall clock when the timestamp is `None` or the falsy float `0.0`. -/
def temporalCurrentTime (timestamp_ms : Option ℚ) (now_ms : ℚ) : ℚ :=
  match timestamp_ms with
  | some t => if t = 0 then now_ms else t
  | none => now_ms

/-- Buffer and change-tracking updates of `_check_temporal_response`
(luminance buffer, temporal buffer, colour-change detection). -/
def temporalUpdate (O : Ops) (e : Engine) (img : Img) (screen_color : String) (ct : ℚ) : Engine :=
  let luminance := O.meanGray (O.toGray img)
  let lb := dequePush 60 e.luminance_buffer (ct, luminance, screen_color)
  let srgb := rgbFromScreenColor screen_color
  let tb := dequePush 120 e.temporal_buffer (ct, luminance, srgb.1 + srgb.2.1 + srgb.2.2)
  let changed :=
    match e.last_screen_color with
    | some c => decide (screen_color ≠ c)
    | none => false
  let ccts :=
    if changed then
      let l := e.color_change_timestamps ++ [(screen_color, ct)]
      if 10 < l.length then l.drop 1 else l
    else e.color_change_timestamps
  { e with
    luminance_buffer := lb
    temporal_buffer := tb
    last_color_change_time := if changed then ct else e.last_color_change_time
    color_change_timestamps := ccts
    last_screen_color := some screen_color }

/-- Latency probe of `_check_temporal_response`: baseline from the last five
pre-flash luminances, first post-flash sample deviating by more than 5%. -/
def temporalLatency (cfg : PrismConfig) (lb : List (ℚ × ℚ × String)) (lcct : ℚ) : TemporalResult :=
  if 30 ≤ lb.length ∧ 0 < lcct then
    let pre_flash := (lb.filter (fun p => decide (p.1 < lcct))).map (fun p => p.2.1)
    let post_flash := (lb.filter (fun p => decide (lcct ≤ p.1))).map (fun p => (p.1, p.2.1))
    if 5 ≤ pre_flash.length ∧ 5 ≤ post_flash.length then
      let baseline := listMean (pre_flash.drop (pre_flash.length - 5))
      match post_flash.find? (fun q => decide ((1/20) * baseline < |q.2 - baseline|)) with
      | some q =>
        { delay_ms := q.1 - lcct
          response_detected := true
          is_biological :=
            decide (cfg.temporal_delay_min_ms ≤ q.1 - lcct) &&
              decide (q.1 - lcct ≤ cfg.temporal_delay_max_ms) }
      | none => {}
    else {}
  else {}

/-- Lag scan of the cross-correlation probe: `corr = mean(S[0:N-k] * R[k:N])`
for each lag, keeping the best, stopping when fewer than 10 samples pair up. -/
def xcorrScan (stim resp : List ℚ) : List ℕ → ℚ × ℕ → ℚ × ℕ
  | [], best => best
  | lag :: rest, best =>
    let a := stim.take (resp.length - lag)
    let b := resp.drop lag
    if a.length < 10 then best
    else
      let corr := listMean (List.zipWith (fun x y => x * y) a b)
      xcorrScan stim resp rest (if best.1 < corr then (corr, lag) else best)

/-- Cross-correlation probe of `_check_temporal_response` (normalisation,
lag bounds, best-lag scan, pass flag). -/
def temporalXcorr (O : Ops) (cfg : PrismConfig) (tb : List (ℚ × ℚ × ℚ)) (r : TemporalResult) :
    TemporalResult :=
  if cfg.enable_temporal_xcorr = true ∧ 45 ≤ tb.length then
    let resp0 := tb.map (fun p => p.2.1)
    let stim0 := tb.map (fun p => p.2.2)
    let resp1 := resp0.map (fun v => v - listMean resp0)
    let stim1 := stim0.map (fun v => v - listMean stim0)
    let resp_std := O.npStd resp1
    let stim_std := O.npStd stim1
    if 1/1000000 < resp_std ∧ 1/1000000 < stim_std then
      let resp := resp1.map (fun v => v / resp_std)
      let stim := stim1.map (fun v => v / stim_std)
      let dt_ms := 1000 / cfg.fps
      let lo := (max 0 (pyInt (cfg.temporal_xcorr_min_lag_ms / dt_ms))).toNat
      let hi := (max ((lo : ℤ) + 1) (pyInt (cfg.temporal_xcorr_max_lag_ms / dt_ms))).toNat
      let lags := List.range' lo (min hi (resp.length - 1) - lo)
      let best := xcorrScan stim resp lags (-1, 0)
      { r with
        xcorr_strength := pyRound 3 best.1
        xcorr_delay_ms := pyRound 1 ((best.2 : ℚ) * dt_ms)
        xcorr_passed :=
          decide (cfg.temporal_xcorr_min_corr ≤ best.1) &&
            decide (cfg.temporal_xcorr_min_lag_ms ≤ pyRound 1 ((best.2 : ℚ) * dt_ms)) &&
            decide (pyRound 1 ((best.2 : ℚ) * dt_ms) ≤ cfg.temporal_xcorr_max_lag_ms) }
    else r
  else r

/-- Main branch of `_check_temporal_response` (non-empty face image): state
update, then the latency and cross-correlation probes over the updated
buffers. -/
def temporalMain (O : Ops) (e : Engine) (img : Img) (screen_color : String)
    (timestamp_ms : Option ℚ) (now_ms : ℚ) : TemporalResult × Engine :=
  (temporalXcorr O e.config
      (temporalUpdate O e img screen_color (temporalCurrentTime timestamp_ms now_ms)).temporal_buffer
      (temporalLatency e.config
        (temporalUpdate O e img screen_color (temporalCurrentTime timestamp_ms now_ms)).luminance_buffer
        (temporalUpdate O e img screen_color
          (temporalCurrentTime timestamp_ms now_ms)).last_color_change_time),
   temporalUpdate O e img screen_color (temporalCurrentTime timestamp_ms now_ms))

/-- `_check_temporal_response` with its empty-input early return. -/
def checkTemporalResponse (O : Ops) (e : Engine) (face_img : Option Img)
    (screen_color : String) (timestamp_ms : Option ℚ) (now_ms : ℚ) : TemporalResult × Engine :=
  match face_img with
  | none => ({}, e)
  | some img =>
    if img.size = 0 then ({}, e)
    else temporalMain O e img screen_color timestamp_ms now_ms

/-- `_check_moire_pattern`: normalised log-magnitude spectrum statistics with
the inert returns on empty input and vanishing denominator. -/
def checkMoirePattern (O : Ops) (cfg : PrismConfig) (face_img : Option Img) : MoireResult :=
  match face_img with
  | none => {}
  | some img =>
    if img.size = 0 then {}
    else
      let denom := O.moireLogMagMax img
      if denom ≤ 1/10000000000 then {}
      else
        let peak_value := O.moireMaskedPeak img
        let mean_value := O.moireMaskedMean img
        let moire_score := peak_value / (mean_value + 1/10000000000)
        { moire_score := pyRound 3 moire_score
          is_screen := decide (1 / cfg.moire_threshold < moire_score) }

/-- `_check_chroma`: channel-ratio test against the current stimulus colour
(empty image fails; WHITE and unknown colours pass). -/
def checkChroma (O : Ops) (cfg : PrismConfig) (face_img : Option Img) (screen_color : String) :
    Bool :=
  match face_img with
  | none => false
  | some img =>
    if img.size = 0 then false
    else
      let avg := O.avgBGR img
      let blue_val := avg.1
      let green_val := avg.2.1
      let red_val := avg.2.2
      let s := cfg.chroma_sensitivity
      if screen_color = "RED" then decide (blue_val * s < red_val)
      else if screen_color = "BLUE" then decide (red_val * (4/5) < blue_val)
      else if screen_color = "GREEN" then
        decide (red_val * (9/10) < green_val) && decide (blue_val * (9/10) < green_val)
      else true

/-- `_check_static_image`: coefficient of variation of the last 90 green
samples (needs at least 60); also records the `_lighting_unstable` attribute
on the engine, exactly as the source's attribute write does. -/
def checkStaticImage (O : Ops) (e : Engine) : StaticImageResult × Engine :=
  if e.green_signal_buffer.length < 60 then ({}, e)
  else
    let recent_signal := lastN 90 e.green_signal_buffer
    let mean_val0 := listMean recent_signal
    let mean_val := if mean_val0 < 1 then 1 else mean_val0
    let variance := O.npStd recent_signal / mean_val * 100
    let too_stable := decide (variance < e.config.min_signal_variance)
    ({ is_static := too_stable
       signal_variance := pyRound 3 variance
       is_alive := !too_stable },
     { e with lighting_unstable := decide (25 < variance) })

/-- `_check_screen_texture`: mean local standard deviation against the
hard-coded 7.5 threshold. -/
def checkScreenTexture (O : Ops) (face_img : Option Img) : Bool × ℚ :=
  match face_img with
  | none => (false, 0)
  | some img =>
    if img.size = 0 then (false, 0)
    else
      let avg_local_std := O.avgLocalStd img
      (decide (avg_local_std < 15/2), pyRound 2 avg_local_std)

/-- `_check_screen_flicker`: high-frequency vs rPPG-band power of the
real-FFT of the de-meaned last 60 green samples. -/
def checkScreenFlicker (O : Ops) (e : Engine) : Bool × ℚ :=
  if e.green_signal_buffer.length < 60 then (false, 0)
  else
    let sig0 := lastN 60 e.green_signal_buffer
    let sig := sig0.map (fun v => v - listMean sig0)
    let fft_vals := O.rfftAbs sig
    let freqs := (List.range (sig.length / 2 + 1)).map
      (fun k => (k : ℚ) * e.config.fps / (sig.length : ℚ))
    let pairs := freqs.zip fft_vals
    let rppg_power :=
      if (freqs.filter (fun f => decide ((3/4 : ℚ) ≤ f) && decide (f ≤ 3))).length ≠ 0 then
        ((pairs.filter (fun p => decide ((3/4 : ℚ) ≤ p.1) && decide (p.1 ≤ 3))).map
          (fun p => p.2)).sum
      else 1/1000
    let high_power :=
      if (freqs.filter (fun f => decide ((5:ℚ) < f))).length ≠ 0 then
        ((pairs.filter (fun p => decide ((5:ℚ) < p.1))).map (fun p => p.2)).sum
      else 0
    let ratioQ := high_power / (rppg_power + 1/1000000)
    (decide ((3/2 : ℚ) < ratioQ), pyRound 3 ratioQ)

/-- `_check_screen_texture` call in fusion step 9: runs only when the
`_last_face_img` attribute is present and not `None`. -/
def fusionScreenTexture (O : Ops) (e : Engine) : Bool × ℚ :=
  match e.last_face_img with
  | some img => checkScreenTexture O (some img)
  | none => (false, 0)

/-- `_compute_quality_features`: blur variance, exposure clipping, frame
difference motion (0 on the first frame or on a shape change), minimum ROI
dimension; updates the `_prev_roi_gray` attribute. -/
def computeQualityFeatures (O : Ops) (e : Engine) (roi_bgr : Option Img) :
    QualityFeatures × Engine :=
  match roi_bgr with
  | none => ({}, e)
  | some img =>
    if img.size = 0 then ({}, e)
    else
      let gray := O.toGray img
      let blur_var := O.lapVar gray
      let exposure_clip_pct := O.lowClipPct gray + O.highClipPct gray
      let motion_score :=
        match e.prev_roi_gray with
        | none => (0 : ℚ)
        | some pg => if pg.h = gray.h ∧ pg.w = gray.w then O.absdiffMean pg gray else 0
      ({ motion_score := motion_score
         blur_var := blur_var
         exposure_clip_pct := exposure_clip_pct
         roi_min_dim := ((min gray.h gray.w : ℕ) : ℚ) },
       { e with prev_roi_gray := some gray })

/-- `_quality_gate`: ROI size, blur, exposure and motion thresholds in source
order; trivially passes when gating is disabled. -/
def qualityGate (cfg : PrismConfig) (f : QualityFeatures) : Bool × String :=
  if cfg.enable_quality_gate = false then (true, "disabled")
  else if f.roi_min_dim < (cfg.min_roi_size : ℚ) then (false, "roi_too_small")
  else if f.blur_var < cfg.min_blur_var_laplacian then (false, "too_blurry")
  else if cfg.max_exposure_clip_pct < f.exposure_clip_pct then (false, "bad_exposure")
  else if cfg.max_motion_score < f.motion_score then (false, "too_much_motion")
  else (true, "pass")

/-- One `process_frame` input: the two image arguments, the stimulus label,
the optional timestamp, the ambient wall-clock milliseconds used when the
timestamp is falsy, and the exception flag for the ROI extraction block. -/
structure Frame where
  forehead_roi : Option Img := none
  face_img : Option Img := none
  screen_color : String := "WHITE"
  timestamp_ms : Option ℚ := none
  now_ms : ℚ := 0
  roi_raises : Bool := false

/-- Step 1 of `process_frame` (the `try` block): on a present, non-empty ROI
append the green mean and mean RGB to both signal buffers, then compute
quality features and run the gate.  `fr.roi_raises` models an
`IndexError`/`ValueError` raised at the initial `forehead_roi[:, :, 1]`
access: the handler marks the gate failed with reason `roi_error` and no
buffer is modified.  A missing or empty ROI fails with `roi_missing`. -/
def roiStep (O : Ops) (e : Engine) (fr : Frame) : Option QualityFeatures × Bool × String × Engine :=
  match fr.forehead_roi with
  | some roi =>
    if 0 < roi.size then
      if fr.roi_raises then (none, false, "roi_error", e)
      else
        let eg := { e with
          green_signal_buffer :=
            dequePush e.config.buffer_size e.green_signal_buffer (O.meanChannel1 roi) }
        let er := { eg with
          rgb_signal_buffer :=
            dequePush e.config.buffer_size eg.rgb_signal_buffer (O.meanRGB roi) }
        let qf := computeQualityFeatures O er (some roi)
        let gr := qualityGate e.config qf.1
        (some qf.1, gr.1, gr.2, qf.2)
    else (none, false, "roi_missing", e)
  | none => (none, false, "roi_missing", e)

/-- Initial diagnostics record of `_compute_fusion_score` (the dict literal
at the top of the function). -/
def fusionD0 (rppg : RPPGResult) (physics : PhysicsResult) (chroma_passed : Bool)
    (temporal : TemporalResult) (moire : MoireResult) : Details :=
  { bpm := rppg.bpm
    bpm_signal_quality := rppg.signal_quality
    hrv_rmssd := rppg.hrv.rmssd
    hrv_entropy := rppg.hrv.entropy
    physics_passed := physics.sss_passed
    sss_ratio_q := physics.sss_ratio_q
    chroma_passed := chroma_passed
    temporal_delay_ms := temporal.delay_ms
    temporal_biological := temporal.is_biological
    temporal_xcorr_delay_ms := temporal.xcorr_delay_ms
    temporal_xcorr_strength := temporal.xcorr_strength
    temporal_xcorr_passed := temporal.xcorr_passed
    moire_detected := moire.is_screen
    moire_score := moire.moire_score }

/-- Fusion step 1 (rPPG): quality-weighted credit when valid, else the
warmup bonus once the RGB buffer holds more than 30 samples. -/
def fusionRppgStep (cfg : PrismConfig) (rgbLen : ℕ) (rppg : RPPGResult) (sd : ℚ × Details) :
    ℚ × Details :=
  if rppg.is_valid then
    (sd.1 + cfg.weight_rppg * rppg.signal_quality,
     { sd.2 with rppg_contribution := some (pyRound 1 (cfg.weight_rppg * rppg.signal_quality)) })
  else if 30 < rgbLen then
    (sd.1 + 5, { sd.2 with rppg_warmup_bonus := some 5 })
  else sd

/-- Fusion step 2 (HRV): fixed credit when biologically valid. -/
def fusionHrvStep (cfg : PrismConfig) (rppg : RPPGResult) (sd : ℚ × Details) : ℚ × Details :=
  if rppg.hrv.is_biologically_valid then
    (sd.1 + cfg.weight_hrv, { sd.2 with hrv_contribution := some cfg.weight_hrv })
  else sd

/-- Fusion step 3 (SSS): scaled credit when passed (at least half weight),
else partial credit when the ratio is within 0.15 of the threshold. -/
def fusionSssStep (cfg : PrismConfig) (physics : PhysicsResult) (sd : ℚ × Details) : ℚ × Details :=
  if physics.sss_passed then
    let sss_confidence := max (1/2) (min 1 ((physics.sss_ratio_q - cfg.sss_ratio_threshold) / (3/20)))
    (sd.1 + cfg.weight_physics_sss * sss_confidence,
     { sd.2 with physics_contribution := some (pyRound 1 (cfg.weight_physics_sss * sss_confidence)) })
  else if cfg.sss_ratio_threshold - 3/20 < physics.sss_ratio_q then
    (sd.1 + cfg.weight_physics_sss * (3/10),
     { sd.2 with physics_partial_credit := some (pyRound 1 (cfg.weight_physics_sss * (3/10))) })
  else sd

/-- Fusion step 4 (chroma): fixed credit when passed. -/
def fusionChromaStep (cfg : PrismConfig) (chroma_passed : Bool) (sd : ℚ × Details) : ℚ × Details :=
  if chroma_passed then
    (sd.1 + cfg.weight_chroma, { sd.2 with chroma_contribution := some cfg.weight_chroma })
  else sd

/-- Fusion step 5 (temporal): full weight plus an xcorr-strength bonus when
either probe passed. -/
def fusionTemporalStep (cfg : PrismConfig) (temporal : TemporalResult) (sd : ℚ × Details) :
    ℚ × Details :=
  if (temporal.response_detected && temporal.is_biological) || temporal.xcorr_passed then
    let xcorr_bonus := min 10 (temporal.xcorr_strength * 15)
    (sd.1 + cfg.weight_temporal + xcorr_bonus,
     { sd.2 with temporal_contribution := some (cfg.weight_temporal + xcorr_bonus) })
  else sd

/-- Fusion step 6 (moire): triple-weight penalty when a screen is detected,
else the weight as credit. -/
def fusionMoireStep (cfg : PrismConfig) (moire : MoireResult) (sd : ℚ × Details) : ℚ × Details :=
  if moire.is_screen then
    (sd.1 - cfg.weight_moire * 3, { sd.2 with moire_penalty := some (-(cfg.weight_moire * 3)) })
  else
    (sd.1 + cfg.weight_moire, { sd.2 with moire_contribution := some cfg.weight_moire })

/-- Fusion step 7 (BPM stability): penalty from the standard deviation of
the raw BPM history once it holds at least 15 samples. -/
def fusionBpmStabilityStep (O : Ops) (cfg : PrismConfig) (raw_hist : List ℚ) (sd : ℚ × Details) :
    ℚ × Details :=
  if 15 ≤ raw_hist.length then
    let bpm_std := O.npStd raw_hist
    let d1 := { sd.2 with bpm_stability_std := some (pyRound 1 bpm_std) }
    if cfg.bpm_stability_threshold < bpm_std then
      let pen := min 30 ((bpm_std - cfg.bpm_stability_threshold) * (3/2))
      (sd.1 - pen, { d1 with bpm_stability_penalty := some (pyRound 1 (-pen)) })
    else (sd.1, d1)
  else sd

/-- Fusion step 8 (lighting flag and static-signal verdict): the -10
lighting penalty, then the -50 static penalty or the +15 alive bonus. -/
def fusionStaticStep (sr : StaticImageResult) (lighting : Bool) (sd : ℚ × Details) : ℚ × Details :=
  let d0 := { sd.2 with
    signal_variance := sr.signal_variance
    is_static_image := sr.is_static
    lighting_unstable := lighting }
  let sd1 :=
    if lighting then (sd.1 - 10, { d0 with lighting_penalty := some (-10) }) else (sd.1, d0)
  if sr.is_static then
    (sd1.1 - 50, { sd1.2 with static_image_penalty := some (-50) })
  else if sr.is_alive then
    (sd1.1 + 15, { sd1.2 with alive_bonus := some 15 })
  else sd1

/-- Fusion step 9 (screen texture): diagnostics are recorded only when a
last face image is present; a screen-like texture costs 60 points. -/
def fusionTextureStep (texPair : Bool × ℚ) (hasImg : Bool) (sd : ℚ × Details) : ℚ × Details :=
  if hasImg then
    let d1 := { sd.2 with
      texture_uniformity := some texPair.2
      screen_texture_detected := some texPair.1 }
    if texPair.1 then (sd.1 - 60, { d1 with screen_texture_penalty := some (-60) })
    else (sd.1, d1)
  else sd

/-- Fusion step 10 (screen flicker): a detected flicker costs 40 points. -/
def fusionFlickerStep (fl : Bool × ℚ) (sd : ℚ × Details) : ℚ × Details :=
  let d1 := { sd.2 with
    screen_flicker_detected := fl.1
    screen_flicker_ratio_q := fl.2 }
  if fl.1 then (sd.1 - 40, { d1 with screen_flicker_penalty := some (-40) }) else (sd.1, d1)

/-- Fusion steps 1-7 composed on the initial score 0 and diagnostics. -/
def fusionP7 (O : Ops) (e : Engine) (rppg : RPPGResult) (physics : PhysicsResult)
    (chroma_passed : Bool) (temporal : TemporalResult) (moire : MoireResult) : ℚ × Details :=
  fusionBpmStabilityStep O e.config e.raw_bpm_history
    (fusionMoireStep e.config moire
      (fusionTemporalStep e.config temporal
        (fusionChromaStep e.config chroma_passed
          (fusionSssStep e.config physics
            (fusionHrvStep e.config rppg
              (fusionRppgStep e.config e.rgb_signal_buffer.length rppg
                (0, fusionD0 rppg physics chroma_passed temporal moire)))))))

/-- Score and diagnostics of `_compute_fusion_score` just before clamping:
steps 1-7, the static-image check (which also writes the lighting flag on
the engine), the texture step and the flicker step, in source order. -/
def fusionScorePreClamp (O : Ops) (e : Engine) (rppg : RPPGResult) (physics : PhysicsResult)
    (chroma_passed : Bool) (temporal : TemporalResult) (moire : MoireResult) : ℚ × Details :=
  fusionFlickerStep (checkScreenFlicker O (checkStaticImage O e).2)
    (fusionTextureStep (fusionScreenTexture O (checkStaticImage O e).2)
      (checkStaticImage O e).2.last_face_img.isSome
      (fusionStaticStep (checkStaticImage O e).1 (checkStaticImage O e).2.lighting_unstable
        (fusionP7 O e rppg physics chroma_passed temporal moire)))

/-- `confidence = max(0, min(100, score))`. -/
def fusionConfidence (O : Ops) (e : Engine) (rppg : RPPGResult) (physics : PhysicsResult)
    (chroma_passed : Bool) (temporal : TemporalResult) (moire : MoireResult) : ℚ :=
  max 0 (min 100 (fusionScorePreClamp O e rppg physics chroma_passed temporal moire).1)

/-- The two hard override gates at the end of `_compute_fusion_score`: a
static signal with at least 60 green samples, or a screen-like texture with
at least 30, force `is_human = False` and record `forced_false_reason`
(the texture reason overwrites the static one, as the dict write does). -/
def applyHardGates (staticIs : Bool) (texIs : Bool) (glen : ℕ) (ih : Bool) (d : Details) :
    Bool × Details :=
  let r1 :=
    if staticIs && decide (60 ≤ glen) then
      (false, { d with forced_false_reason := some "static_image_low_variance" })
    else (ih, d)
  if texIs && decide (30 ≤ glen) then
    (false, { r1.2 with forced_false_reason := some "screen_texture_detected" })
  else r1

/-- Decision and final diagnostics of `_compute_fusion_score`: threshold at
confidence 40, then the hard override gates. -/
def fusionGates (O : Ops) (e : Engine) (rppg : RPPGResult) (physics : PhysicsResult)
    (chroma_passed : Bool) (temporal : TemporalResult) (moire : MoireResult) : Bool × Details :=
  applyHardGates (checkStaticImage O e).1.is_static
    (fusionScreenTexture O (checkStaticImage O e).2).1
    (checkStaticImage O e).2.green_signal_buffer.length
    (decide ((40 : ℚ) ≤ fusionConfidence O e rppg physics chroma_passed temporal moire))
    (fusionScorePreClamp O e rppg physics chroma_passed temporal moire).2

/-- `_compute_fusion_score`: returns `(is_human, round(confidence, 1),
details, engine)`; the engine carries the `_lighting_unstable` attribute
written by the static-image check. -/
def computeFusionScore (O : Ops) (e : Engine) (rppg : RPPGResult) (physics : PhysicsResult)
    (chroma_passed : Bool) (temporal : TemporalResult) (moire : MoireResult) :
    Bool × ℚ × Details × Engine :=
  ((fusionGates O e rppg physics chroma_passed temporal moire).1,
   pyRound 1 (fusionConfidence O e rppg physics chroma_passed temporal moire),
   (fusionGates O e rppg physics chroma_passed temporal moire).2,
   (checkStaticImage O e).2)

/-- `self._last_face_img = face_img` at the top of `process_frame`. -/
def frameInit (e : Engine) (fr : Frame) : Engine := { e with last_face_img := fr.face_img }

/-- Buffer-and-gate step of `process_frame` applied after storing the face
image. -/
def frameRoi (O : Ops) (e : Engine) (fr : Frame) : Option QualityFeatures × Bool × String × Engine :=
  roiStep O (frameInit e fr) fr

/-- `rppg_result = self._get_heart_rate() if quality_passed else RPPGResult()`. -/
def frameHr (O : Ops) (e : Engine) (fr : Frame) : RPPGResult × Engine :=
  if (frameRoi O e fr).2.1 = true then getHeartRate O (frameRoi O e fr).2.2.2
  else ({}, (frameRoi O e fr).2.2.2)

/-- `safe_face_img`: the face image, or the empty image when absent. -/
def safeFace (fr : Frame) : Img := fr.face_img.getD emptyImg

/-- The temporal-response call of `process_frame` (the only analyzer in the
fan-out that mutates state). -/
def frameTemporal (O : Ops) (e : Engine) (fr : Frame) : TemporalResult × Engine :=
  checkTemporalResponse O (frameHr O e fr).2 (some (safeFace fr)) fr.screen_color
    fr.timestamp_ms fr.now_ms

/-- The fusion call of `process_frame`, fed by the physics, chroma, temporal
and moire analyzers on the safe face image. -/
def frameFusion (O : Ops) (e : Engine) (fr : Frame) : Bool × ℚ × Details × Engine :=
  computeFusionScore O (frameTemporal O e fr).2 (frameHr O e fr).1
    (checkPhysicsSss O (frameHr O e fr).2.config (some (safeFace fr)))
    (checkChroma O (frameHr O e fr).2.config (some (safeFace fr)) fr.screen_color)
    (frameTemporal O e fr).1
    (checkMoirePattern O (frameTemporal O e fr).2.config (some (safeFace fr)))

/-- Final diagnostics of `process_frame`: the fusion details updated with
`rppg_method`, the gate outcome and reason, and — when the quality features
were computed — the four feature values. -/
def frameDetails (O : Ops) (e : Engine) (fr : Frame) : Details :=
  let d2 := { (frameFusion O e fr).2.2.1 with
    rppg_method := methodOf (frameFusion O e fr).2.2.2.config
    quality_gate := (frameRoi O e fr).2.1
    quality_gate_reason := (frameRoi O e fr).2.2.1 }
  match (frameRoi O e fr).1 with
  | some qf => { d2 with
      motion_score := some qf.motion_score
      blur_var := some qf.blur_var
      exposure_clip_pct := some qf.exposure_clip_pct
      roi_min_dim := some qf.roi_min_dim }
  | none => d2

/-- `process_frame`: the full per-frame pipeline, returning the
`LivenessResult` and the engine state after the call. -/
def processFrame (O : Ops) (e : Engine) (fr : Frame) : LivenessResult × Engine :=
  ({ is_human := (frameFusion O e fr).1
     confidence := (frameFusion O e fr).2.1
     bpm := (frameHr O e fr).1.bpm
     hrv_score := (frameHr O e fr).1.hrv.entropy
     signal_quality := (frameHr O e fr).1.signal_quality
     details := frameDetails O e fr },
   (frameFusion O e fr).2.2.2)

/-- Sequential `process_frame` calls, collecting the per-frame results. -/
def runFrames (O : Ops) (e : Engine) : List Frame → List LivenessResult × Engine
  | [] => ([], e)
  | fr :: rest =>
    ((processFrame O e fr).1 :: (runFrames O (processFrame O e fr).2 rest).1,
     (runFrames O (processFrame O e fr).2 rest).2)

/-- Per-channel positive rescaling of an RGB window (the offset-free case of
the transformation in the rescaling-invariance claim). -/
def scaleRgbWindow (a1 a2 a3 : ℚ) (W : List (ℚ × ℚ × ℚ)) : List (ℚ × ℚ × ℚ) :=
  W.map (fun p => (a1 * p.1, a2 * p.2.1, a3 * p.2.2))

/-- Per-channel affine map `a * W + c` of an RGB window (the transformation
named by the rescaling-invariance claim). -/
def affineRgbWindow (a1 a2 a3 c1 c2 c3 : ℚ) (W : List (ℚ × ℚ × ℚ)) : List (ℚ × ℚ × ℚ) :=
  W.map (fun p => (a1 * p.1 + c1, a2 * p.2.1 + c2, a3 * p.2.2 + c3))

/-- A concrete, fully computable kernel instantiation used to evaluate the
engine on closed inputs: the standard deviation is 0 exactly on constant
lists and 1 otherwise, detrending and filtering are the identity, and the
Welch PSD has its peak at bin 1. -/
def testOps : Ops where
  sqrtQ := fun _ => 0
  npStd := fun xs => if xs.all (fun v => v = xs.headD 0) then 0 else 1
  detrend := fun xs => xs
  butterFiltfilt := fun _ _ xs => xs
  welchPsd := fun _ n _ => (List.range (n / 2 + 1)).map (fun k => if k = 1 then (10 : ℚ) else 1)
  findPeaks := fun _ _ _ => []
  histEntropy := fun _ => 0
  rfftAbs := fun _ => []
  toGray := fun im => { h := im.h, w := im.w, gid := im.iid }
  meanGray := fun _ => 100
  lapVar := fun _ => 100
  lowClipPct := fun _ => 0
  highClipPct := fun _ => 0
  absdiffMean := fun _ _ => 0
  meanChannel1 := fun im => 100 + im.iid
  meanRGB := fun im => (100, 100 + im.iid, 100)
  avgBGR := fun _ => (100, 100, 100)
  sssVarB := fun _ => 1
  sssVarR := fun _ => 1
  moireLogMagMax := fun _ => 0
  moireMaskedPeak := fun _ => 0
  moireMaskedMean := fun _ => 0
  avgLocalStd := fun _ => 100

/-- `testOps` with a vanishing blur variance, so that every gated frame
fails the quality gate with reason `too_blurry`. -/
def blurOps : Ops := { testOps with lapVar := fun _ => 0 }

/-- A 30x30 BGR ROI with content handle `i`. -/
def roiN (i : ℕ) : Img := { h := 30, w := 30, c := 3, iid := i }

/-- A frame with a valid ROI, no face image, constant WHITE stimulus and a
constant timestamp. -/
def frameN (i : ℕ) : Frame :=
  { forehead_roi := some (roiN i), screen_color := "WHITE", timestamp_ms := some 1 }

/-- The frame used by the single-frame evaluations. -/
def frameA : Frame := frameN 0

/-- A frame whose ROI extraction raises (caught `IndexError`/`ValueError`). -/
def frameErr : Frame :=
  { forehead_roi := some (roiN 0), screen_color := "WHITE", timestamp_ms := some 1,
    roi_raises := true }

/-- A small warmup configuration: 4 samples at 4 fps fill the buffers in 4
frames (an instance of "every configuration"). -/
def cfg4 : PrismConfig :=
  { fps := 4, buffer_size := 4, rppg_min_window_seconds := 1, enable_temporal_xcorr := false }

/-- `cfg4` with a BPM acceptance band `[150, 160]` that the spectral peak
grid cannot reach. -/
def cfgC : PrismConfig :=
  { fps := 4, buffer_size := 4, rppg_min_window_seconds := 1, enable_temporal_xcorr := false,
    min_bpm := 150, max_bpm := 160 }

/-- Four frames with distinct ROI contents: enough to fill the `cfg4` /
`cfgC` buffers and trigger a heart-rate computation on the fourth. -/
def framesC : List Frame := [frameN 0, frameN 1, frameN 2, frameN 3]

/-- The frame processed after the mid-stream `reset()`. -/
def frame5 : Frame := frameN 4

/-- Default configuration with the GREEN rPPG method. -/
def cfgG : PrismConfig := { rppg_method := "GREEN" }

/-- A two-row RGB window whose green channel is `[1, 3]`. -/
def W8 : List (ℚ × ℚ × ℚ) := [(0, 1, 0), (0, 3, 0)]

/-- A two-row RGB window with strictly positive channel means. -/
def W8w : List (ℚ × ℚ × ℚ) := [(1, 1, 1), (1, 3, 2)]

/-- An engine whose green buffer holds 60 identical samples: the static-image
analyzer reports a static signal. -/
def eSt : Engine := { mkEngine {} with green_signal_buffer := List.replicate 60 100 }

/-- An engine under `cfg4` whose RGB buffer is full, with a non-constant
green channel: the heart-rate estimator produces a valid result. -/
def eW : Engine :=
  { mkEngine cfg4 with
    rgb_signal_buffer := [(100, 100, 100), (100, 101, 100), (100, 102, 100), (100, 103, 100)] }

attribute [local semireducible] Rat.add Rat.sub Rat.mul Rat.inv Rat.ofScientific

set_option maxRecDepth 4000

theorem pyRound_nonneg (n : ℕ) (x : ℚ) (hx : 0 ≤ x) : 0 ≤ pyRound n x := by
  unfold pyRound
  apply div_nonneg _ (by positivity)
  have h : (0 : ℤ) ≤ round (x * 10 ^ n) := by
    rw [round_eq]
    apply Int.floor_nonneg.mpr
    have h10 : (0 : ℚ) ≤ x * 10 ^ n := mul_nonneg hx (by positivity)
    linarith
  exact_mod_cast h

theorem pyRound_le_100 (x : ℚ) (hx : x ≤ 100) : pyRound 1 x ≤ 100 := by
  unfold pyRound
  rw [div_le_iff₀ (by norm_num : (0:ℚ) < 10 ^ 1)]
  have h : round (x * 10 ^ 1) ≤ (1000 : ℤ) := by
    rw [round_eq]
    have h1 : ⌊x * 10 ^ 1 + 1/2⌋ ≤ ⌊(2001 : ℚ)/2⌋ := Int.floor_mono (by linarith)
    have h2 : ⌊(2001 : ℚ)/2⌋ = 1000 := by decide
    omega
  calc ((round (x * 10 ^ 1) : ℤ) : ℚ) ≤ ((1000 : ℤ) : ℚ) := by exact_mod_cast h
    _ = 100 * 10 ^ 1 := by norm_num

theorem listSum_map_mul (a : ℚ) (xs : List ℚ) : (xs.map (fun v => a * v)).sum = a * xs.sum := by
  induction xs with
  | nil => simp
  | cons x t ih => simp [ih, mul_add]

theorem listMean_map_mul (a : ℚ) (xs : List ℚ) :
    listMean (xs.map (fun v => a * v)) = a * listMean xs := by
  unfold listMean
  rw [listSum_map_mul, List.length_map, mul_div_assoc]

theorem normChannel_scale (a : ℚ) (xs : List ℚ) (ha : 0 < a)
    (hm : 1/1000000 < listMean xs) (hma : 1/1000000 < a * listMean xs) :
    normChannel (xs.map (fun v => a * v)) = normChannel xs := by
  simp only [normChannel]
  rw [listMean_map_mul, if_neg (not_le.mpr hma), if_neg (not_le.mpr hm), List.map_map]
  congr 1
  funext v
  show a * v / (a * listMean xs) - 1 = v / listMean xs - 1
  rw [mul_div_mul_left _ _ (ne_of_gt ha)]

theorem dequePush_length_le (m : ℕ) (xs : List α) (x : α) :
    (dequePush m xs x).length ≤ xs.length + 1 := by
  simp [dequePush]

theorem getHeartRate_state (O : Ops) (e : Engine) :
    (getHeartRate O e).2.green_signal_buffer = e.green_signal_buffer ∧
    (getHeartRate O e).2.rgb_signal_buffer = e.rgb_signal_buffer ∧
    (getHeartRate O e).2.config = e.config ∧
    (getHeartRate O e).2.last_face_img = e.last_face_img := by
  simp only [getHeartRate, hrCore, hrMain]
  split_ifs <;> exact ⟨rfl, rfl, rfl, rfl⟩

theorem checkTemporalResponse_state (O : Ops) (e : Engine) (face_img : Option Img)
    (sc : String) (ts : Option ℚ) (nw : ℚ) :
    (checkTemporalResponse O e face_img sc ts nw).2.green_signal_buffer = e.green_signal_buffer ∧
    (checkTemporalResponse O e face_img sc ts nw).2.rgb_signal_buffer = e.rgb_signal_buffer ∧
    (checkTemporalResponse O e face_img sc ts nw).2.config = e.config ∧
    (checkTemporalResponse O e face_img sc ts nw).2.last_face_img = e.last_face_img := by
  cases face_img with
  | none => exact ⟨rfl, rfl, rfl, rfl⟩
  | some img =>
    simp only [checkTemporalResponse, temporalMain, temporalUpdate]
    split_ifs <;> exact ⟨rfl, rfl, rfl, rfl⟩

theorem checkStaticImage_state (O : Ops) (e : Engine) :
    (checkStaticImage O e).2.green_signal_buffer = e.green_signal_buffer ∧
    (checkStaticImage O e).2.rgb_signal_buffer = e.rgb_signal_buffer ∧
    (checkStaticImage O e).2.config = e.config ∧
    (checkStaticImage O e).2.last_face_img = e.last_face_img := by
  simp only [checkStaticImage]
  split_ifs <;> exact ⟨rfl, rfl, rfl, rfl⟩

theorem checkStaticImage_warmup (O : Ops) (e : Engine)
    (h : e.green_signal_buffer.length < 60) : checkStaticImage O e = ({}, e) := by
  simp only [checkStaticImage]
  rw [if_pos h]

theorem frameHr_state (O : Ops) (e : Engine) (fr : Frame) :
    (frameHr O e fr).2.green_signal_buffer = (frameRoi O e fr).2.2.2.green_signal_buffer ∧
    (frameHr O e fr).2.rgb_signal_buffer = (frameRoi O e fr).2.2.2.rgb_signal_buffer ∧
    (frameHr O e fr).2.config = (frameRoi O e fr).2.2.2.config ∧
    (frameHr O e fr).2.last_face_img = (frameRoi O e fr).2.2.2.last_face_img := by
  unfold frameHr
  split_ifs
  · exact getHeartRate_state O _
  · exact ⟨rfl, rfl, rfl, rfl⟩

theorem processFrame_state (O : Ops) (e : Engine) (fr : Frame) :
    (processFrame O e fr).2.green_signal_buffer = (frameRoi O e fr).2.2.2.green_signal_buffer ∧
    (processFrame O e fr).2.rgb_signal_buffer = (frameRoi O e fr).2.2.2.rgb_signal_buffer ∧
    (processFrame O e fr).2.config = (frameRoi O e fr).2.2.2.config := by
  have h1 := checkStaticImage_state O (frameTemporal O e fr).2
  have h2 := checkTemporalResponse_state O (frameHr O e fr).2 (some (safeFace fr))
    fr.screen_color fr.timestamp_ms fr.now_ms
  have h3 := frameHr_state O e fr
  refine ⟨?_, ?_, ?_⟩
  · show (checkStaticImage O (frameTemporal O e fr).2).2.green_signal_buffer = _
    rw [h1.1]
    show (checkTemporalResponse O (frameHr O e fr).2 (some (safeFace fr))
      fr.screen_color fr.timestamp_ms fr.now_ms).2.green_signal_buffer = _
    rw [h2.1, h3.1]
  · show (checkStaticImage O (frameTemporal O e fr).2).2.rgb_signal_buffer = _
    rw [h1.2.1]
    show (checkTemporalResponse O (frameHr O e fr).2 (some (safeFace fr))
      fr.screen_color fr.timestamp_ms fr.now_ms).2.rgb_signal_buffer = _
    rw [h2.2.1, h3.2.1]
  · show (checkStaticImage O (frameTemporal O e fr).2).2.config = _
    rw [h1.2.2.1]
    show (checkTemporalResponse O (frameHr O e fr).2 (some (safeFace fr))
      fr.screen_color fr.timestamp_ms fr.now_ms).2.config = _
    rw [h2.2.2.1, h3.2.2.1]

theorem roiStep_append (O : Ops) (e : Engine) (fr : Frame) (roi : Img)
    (h1 : fr.forehead_roi = some roi) (h2 : 0 < roi.size) (h3 : fr.roi_raises = false) :
    (roiStep O e fr).2.2.2.green_signal_buffer =
        dequePush e.config.buffer_size e.green_signal_buffer (O.meanChannel1 roi) ∧
      (roiStep O e fr).2.2.2.rgb_signal_buffer =
        dequePush e.config.buffer_size e.rgb_signal_buffer (O.meanRGB roi) ∧
      (roiStep O e fr).2.2.2.config = e.config := by
  simp only [roiStep, h1, h3]
  rw [if_pos h2]
  simp only [Bool.false_eq_true, if_false, computeQualityFeatures]
  rw [if_neg (by omega : ¬ roi.size = 0)]
  exact ⟨rfl, rfl, rfl⟩

theorem roiStep_skip (O : Ops) (e : Engine) (fr : Frame)
    (h : fr.forehead_roi = none ∨
      ∃ roi, fr.forehead_roi = some roi ∧ (roi.size = 0 ∨ fr.roi_raises = true)) :
    (roiStep O e fr).2.2.2 = e := by
  rcases h with h | ⟨roi, hr, hz | hraise⟩
  · simp [roiStep, h]
  · simp [roiStep, hr, hz]
  · simp only [roiStep, hr, hraise, if_true]
    split_ifs <;> rfl

theorem roiStep_growth (O : Ops) (e : Engine) (fr : Frame) :
    (roiStep O e fr).2.2.2.green_signal_buffer.length ≤ e.green_signal_buffer.length + 1 ∧
      (roiStep O e fr).2.2.2.rgb_signal_buffer.length ≤ e.rgb_signal_buffer.length + 1 ∧
      (roiStep O e fr).2.2.2.config = e.config := by
  cases hroi : fr.forehead_roi with
  | none => simp [roiStep, hroi]
  | some roi =>
    by_cases hz : 0 < roi.size
    · by_cases hraise : fr.roi_raises = true
      · have := roiStep_skip O e fr (Or.inr ⟨roi, hroi, Or.inr hraise⟩)
        rw [this]
        exact ⟨Nat.le_succ _, Nat.le_succ _, rfl⟩
      · have h3 : fr.roi_raises = false := by
          cases hb : fr.roi_raises
          · rfl
          · exact absurd hb hraise
        have ha := roiStep_append O e fr roi hroi hz h3
        refine ⟨?_, ?_, ha.2.2⟩
        · rw [ha.1]; exact dequePush_length_le _ _ _
        · rw [ha.2.1]; exact dequePush_length_le _ _ _
    · have := roiStep_skip O e fr (Or.inr ⟨roi, hroi, Or.inl (by omega)⟩)
      rw [this]
      exact ⟨Nat.le_succ _, Nat.le_succ _, rfl⟩

theorem getHeartRate_warmup (O : Ops) (e : Engine)
    (hg : e.green_signal_buffer.length < e.config.buffer_size)
    (hr : e.rgb_signal_buffer.length < e.config.buffer_size) :
    getHeartRate O e = ({}, e) := by
  simp only [getHeartRate]
  split_ifs <;> rfl

theorem frameRoi_growth (O : Ops) (e : Engine) (fr : Frame) :
    (frameRoi O e fr).2.2.2.green_signal_buffer.length ≤ e.green_signal_buffer.length + 1 ∧
      (frameRoi O e fr).2.2.2.rgb_signal_buffer.length ≤ e.rgb_signal_buffer.length + 1 ∧
      (frameRoi O e fr).2.2.2.config = e.config :=
  roiStep_growth O (frameInit e fr) fr

theorem processFrame_warmup (O : Ops) (e : Engine) (fr : Frame)
    (hg : e.green_signal_buffer.length + 1 < e.config.buffer_size)
    (hr : e.rgb_signal_buffer.length + 1 < e.config.buffer_size) :
    (processFrame O e fr).1.bpm = 0 ∧ (processFrame O e fr).1.signal_quality = 0 := by
  have hgrow := frameRoi_growth O e fr
  have hhr : (if (frameRoi O e fr).2.1 = true then getHeartRate O (frameRoi O e fr).2.2.2
      else ({}, (frameRoi O e fr).2.2.2)).1 = ({} : RPPGResult) := by
    split_ifs
    · rw [getHeartRate_warmup O _ (by rw [hgrow.2.2]; omega) (by rw [hgrow.2.2]; omega)]
    · rfl
  constructor
  · show (frameHr O e fr).1.bpm = 0
    unfold frameHr
    rw [hhr]
  · show (frameHr O e fr).1.signal_quality = 0
    unfold frameHr
    rw [hhr]

theorem processFrame_growth (O : Ops) (e : Engine) (fr : Frame) :
    (processFrame O e fr).2.green_signal_buffer.length ≤ e.green_signal_buffer.length + 1 ∧
      (processFrame O e fr).2.rgb_signal_buffer.length ≤ e.rgb_signal_buffer.length + 1 ∧
      (processFrame O e fr).2.config = e.config := by
  have hps := processFrame_state O e fr
  have hgrow := frameRoi_growth O e fr
  exact ⟨by rw [hps.1]; exact hgrow.1, by rw [hps.2.1]; exact hgrow.2.1,
    by rw [hps.2.2]; exact hgrow.2.2⟩

theorem runFrames_warmup (O : Ops) : ∀ (frames : List Frame) (e : Engine),
    e.green_signal_buffer.length + frames.length < e.config.buffer_size →
    e.rgb_signal_buffer.length + frames.length < e.config.buffer_size →
    ∀ r ∈ (runFrames O e frames).1, r.bpm = 0 ∧ r.signal_quality = 0 := by
  intro frames
  induction frames with
  | nil =>
    intro e _ _ r hmem
    simp [runFrames] at hmem
  | cons fr rest ih =>
    intro e hg hr r hmem
    simp only [runFrames, List.mem_cons] at hmem
    have hlen : rest.length + 1 = (fr :: rest).length := rfl
    rcases hmem with hsame | hmem
    · subst hsame
      exact processFrame_warmup O e fr (by simp at hg; omega) (by simp at hr; omega)
    · have hgrow := processFrame_growth O e fr
      refine ih (processFrame O e fr).2 ?_ ?_ r hmem
      · rw [hgrow.2.2]
        have := hgrow.1
        simp at hg
        omega
      · rw [hgrow.2.2]
        have := hgrow.2.1
        simp at hr
        omega

theorem fusionRppgStep_forced (cfg : PrismConfig) (rgbLen : ℕ) (rppg : RPPGResult)
    (sd : ℚ × Details) :
    (fusionRppgStep cfg rgbLen rppg sd).2.forced_false_reason = sd.2.forced_false_reason := by
  unfold fusionRppgStep
  split_ifs <;> rfl

theorem fusionHrvStep_forced (cfg : PrismConfig) (rppg : RPPGResult) (sd : ℚ × Details) :
    (fusionHrvStep cfg rppg sd).2.forced_false_reason = sd.2.forced_false_reason := by
  unfold fusionHrvStep
  split_ifs <;> rfl

theorem fusionSssStep_forced (cfg : PrismConfig) (physics : PhysicsResult) (sd : ℚ × Details) :
    (fusionSssStep cfg physics sd).2.forced_false_reason = sd.2.forced_false_reason := by
  unfold fusionSssStep
  split_ifs <;> rfl

theorem fusionChromaStep_forced (cfg : PrismConfig) (cp : Bool) (sd : ℚ × Details) :
    (fusionChromaStep cfg cp sd).2.forced_false_reason = sd.2.forced_false_reason := by
  unfold fusionChromaStep
  split_ifs <;> rfl

theorem fusionTemporalStep_forced (cfg : PrismConfig) (t : TemporalResult) (sd : ℚ × Details) :
    (fusionTemporalStep cfg t sd).2.forced_false_reason = sd.2.forced_false_reason := by
  unfold fusionTemporalStep
  split_ifs <;> rfl

theorem fusionMoireStep_forced (cfg : PrismConfig) (m : MoireResult) (sd : ℚ × Details) :
    (fusionMoireStep cfg m sd).2.forced_false_reason = sd.2.forced_false_reason := by
  unfold fusionMoireStep
  split_ifs <;> rfl

theorem fusionBpmStabilityStep_forced (O : Ops) (cfg : PrismConfig) (raw_hist : List ℚ)
    (sd : ℚ × Details) :
    (fusionBpmStabilityStep O cfg raw_hist sd).2.forced_false_reason =
      sd.2.forced_false_reason := by
  simp only [fusionBpmStabilityStep]
  split_ifs <;> rfl

theorem fusionStaticStep_forced (sr : StaticImageResult) (lighting : Bool) (sd : ℚ × Details) :
    (fusionStaticStep sr lighting sd).2.forced_false_reason = sd.2.forced_false_reason := by
  simp only [fusionStaticStep]
  split_ifs <;> rfl

theorem fusionTextureStep_forced (texPair : Bool × ℚ) (hasImg : Bool) (sd : ℚ × Details) :
    (fusionTextureStep texPair hasImg sd).2.forced_false_reason = sd.2.forced_false_reason := by
  unfold fusionTextureStep
  split_ifs <;> rfl

theorem fusionFlickerStep_forced (fl : Bool × ℚ) (sd : ℚ × Details) :
    (fusionFlickerStep fl sd).2.forced_false_reason = sd.2.forced_false_reason := by
  unfold fusionFlickerStep
  split_ifs <;> rfl

theorem fusionPreClamp_forced (O : Ops) (e : Engine) (rppg : RPPGResult)
    (physics : PhysicsResult) (cp : Bool) (t : TemporalResult) (m : MoireResult) :
    (fusionScorePreClamp O e rppg physics cp t m).2.forced_false_reason = none := by
  unfold fusionScorePreClamp fusionP7
  rw [fusionFlickerStep_forced, fusionTextureStep_forced, fusionStaticStep_forced,
    fusionBpmStabilityStep_forced, fusionMoireStep_forced, fusionTemporalStep_forced,
    fusionChromaStep_forced, fusionSssStep_forced, fusionHrvStep_forced, fusionRppgStep_forced]
  rfl

theorem fusionTextureStep_static_fields (texPair : Bool × ℚ) (hasImg : Bool) (sd : ℚ × Details) :
    (fusionTextureStep texPair hasImg sd).2.is_static_image = sd.2.is_static_image ∧
      (fusionTextureStep texPair hasImg sd).2.static_image_penalty =
        sd.2.static_image_penalty := by
  unfold fusionTextureStep
  split_ifs <;> exact ⟨rfl, rfl⟩

theorem fusionFlickerStep_static_fields (fl : Bool × ℚ) (sd : ℚ × Details) :
    (fusionFlickerStep fl sd).2.is_static_image = sd.2.is_static_image ∧
      (fusionFlickerStep fl sd).2.static_image_penalty = sd.2.static_image_penalty := by
  unfold fusionFlickerStep
  split_ifs <;> exact ⟨rfl, rfl⟩

theorem fusionStaticStep_sets (sr : StaticImageResult) (lighting : Bool) (sd : ℚ × Details) :
    (fusionStaticStep sr lighting sd).2.is_static_image = sr.is_static ∧
      (sr.is_static = true →
        (fusionStaticStep sr lighting sd).2.static_image_penalty = some (-50)) := by
  simp only [fusionStaticStep]
  constructor
  · split_ifs <;> rfl
  · intro hs
    split_ifs <;> simp_all

theorem applyHardGates_static_fields (s t : Bool) (glen : ℕ) (ih : Bool) (d : Details) :
    (applyHardGates s t glen ih d).2.is_static_image = d.is_static_image ∧
      (applyHardGates s t glen ih d).2.static_image_penalty = d.static_image_penalty := by
  unfold applyHardGates
  split_ifs <;> exact ⟨rfl, rfl⟩

theorem applyHardGates_force (s t : Bool) (glen : ℕ) (ih : Bool) (d : Details)
    (h : (s = true ∧ 60 ≤ glen) ∨ (t = true ∧ 30 ≤ glen)) :
    (applyHardGates s t glen ih d).1 = false ∧
      ((applyHardGates s t glen ih d).2.forced_false_reason).isSome = true := by
  unfold applyHardGates
  rcases h with ⟨hs, hg⟩ | ⟨ht, hg⟩
  · rw [hs]
    simp only [Bool.true_and, decide_eq_true_eq]
    rw [if_pos hg]
    split_ifs <;> simp
  · rw [ht]
    simp only [Bool.true_and, decide_eq_true_eq]
    rw [if_pos hg]
    simp

theorem applyHardGates_no_static_reason (s t : Bool) (glen : ℕ) (ih : Bool) (d : Details)
    (h : ¬ (s = true ∧ 60 ≤ glen)) :
    (applyHardGates s t glen ih d).2.forced_false_reason = d.forced_false_reason ∨
      (applyHardGates s t glen ih d).2.forced_false_reason =
        some "screen_texture_detected" := by
  unfold applyHardGates
  have hcond : (s && decide (60 ≤ glen)) = false := by
    cases hs : s
    · rfl
    · simp only [Bool.true_and, decide_eq_false_iff_not]
      intro hg
      exact h ⟨hs, hg⟩
  rw [hcond]
  simp only [Bool.false_eq_true, if_false]
  split_ifs <;> simp

theorem hrMain_valid_range (O : Ops) (e : Engine) (raw : List ℚ)
    (h : (hrMain O e raw).1.is_valid = true) :
    e.config.min_bpm ≤ (hrMain O e raw).1.bpm ∧ (hrMain O e raw).1.bpm ≤ e.config.max_bpm := by
  simp only [hrMain] at h ⊢
  simp only [Bool.and_eq_true, decide_eq_true_eq] at h
  exact ⟨h.1.1, h.1.2⟩

/-- C1: the claim says `reset()` clears all engine buffers so that the engine
becomes observationally equivalent to a fresh engine with the same config.
The code does not: `rgb_signal_buffer` (and likewise `temporal_buffer` and
`raw_bpm_history`) survive `reset()`.  This theorem evaluates the code at the
failing input: one processed frame followed by `reset()` leaves a non-empty
RGB buffer, unlike a freshly constructed engine. -/
theorem c1_reset_keeps_rgb_buffer :
    (Engine.reset (processFrame testOps (mkEngine {}) frameA).2).rgb_signal_buffer ≠
      (mkEngine {}).rgb_signal_buffer := by decide

/-- C2 counterexample: a frame whose ROI is present but too blurry fails the
quality gate (reason `too_blurry`), yet both `green_buf` and `rgb_buf` grow
from length 0 to length 1 — refuting "appended only when the gate passes
... after a gate-failing frame both buffers are unchanged". -/
theorem c2_counterexample :
    (processFrame blurOps (mkEngine {}) frameA).1.details.quality_gate = false ∧
      (processFrame blurOps (mkEngine {}) frameA).1.details.quality_gate_reason = "too_blurry" ∧
      (processFrame blurOps (mkEngine {}) frameA).2.green_signal_buffer.length = 1 ∧
      (processFrame blurOps (mkEngine {}) frameA).2.rgb_signal_buffer.length = 1 := by decide

/-- C2 (amended): for every frame with a present, non-empty ROI whose
extraction does not raise, the green mean and the RGB mean are appended to
`green_buf` and `rgb_buf` regardless of the quality-gate outcome (the gate
only controls whether heart rate is computed); with a missing, empty or
raising ROI, neither buffer changes — so the two buffers still advance in
lockstep, both or neither. -/
theorem c2_appends_regardless_of_gate (O : Ops) (e : Engine) (fr : Frame) :
    (∀ roi : Img, fr.forehead_roi = some roi → 0 < roi.size → fr.roi_raises = false →
      (processFrame O e fr).2.green_signal_buffer =
          dequePush e.config.buffer_size e.green_signal_buffer (O.meanChannel1 roi) ∧
        (processFrame O e fr).2.rgb_signal_buffer =
          dequePush e.config.buffer_size e.rgb_signal_buffer (O.meanRGB roi)) ∧
    ((fr.forehead_roi = none ∨
        ∃ roi, fr.forehead_roi = some roi ∧ (roi.size = 0 ∨ fr.roi_raises = true)) →
      (processFrame O e fr).2.green_signal_buffer = e.green_signal_buffer ∧
        (processFrame O e fr).2.rgb_signal_buffer = e.rgb_signal_buffer) := by
  have hps := processFrame_state O e fr
  constructor
  · intro roi h1 h2 h3
    have ha := roiStep_append O (frameInit e fr) fr roi h1 h2 h3
    constructor
    · rw [hps.1]
      exact ha.1
    · rw [hps.2.1]
      exact ha.2.1
  · intro h
    have hsk := roiStep_skip O (frameInit e fr) fr h
    constructor
    · rw [hps.1]
      unfold frameRoi
      rw [hsk]
      rfl
    · rw [hps.2.1]
      unfold frameRoi
      rw [hsk]
      rfl

/-- C2 witness: the amended theorem applied to a fresh engine and a concrete
frame with a valid ROI. -/
theorem c2_witness :
    (processFrame testOps (mkEngine {}) frameA).2.green_signal_buffer =
        dequePush (mkEngine {}).config.buffer_size (mkEngine {}).green_signal_buffer
          (testOps.meanChannel1 (roiN 0)) ∧
      (processFrame testOps (mkEngine {}) frameA).2.rgb_signal_buffer =
        dequePush (mkEngine {}).config.buffer_size (mkEngine {}).rgb_signal_buffer
          (testOps.meanRGB (roiN 0)) :=
  (c2_appends_regardless_of_gate testOps (mkEngine {}) frameA).1 (roiN 0) rfl (by decide) rfl

/-- C3: if the static analyzer reports `is_static` with at least 60 green
samples, or screen texture is detected with at least 30 green samples, then
the fusion decision is `is_human = false` regardless of the fused confidence
score, and `forced_false_reason` is recorded in the diagnostics. -/
theorem c3_hard_override_gates (O : Ops) (e : Engine) (rppg : RPPGResult)
    (physics : PhysicsResult) (cp : Bool) (t : TemporalResult) (m : MoireResult)
    (h : ((checkStaticImage O e).1.is_static = true ∧ 60 ≤ e.green_signal_buffer.length) ∨
      ((fusionScreenTexture O e).1 = true ∧ 30 ≤ e.green_signal_buffer.length)) :
    (computeFusionScore O e rppg physics cp t m).1 = false ∧
      ((computeFusionScore O e rppg physics cp t m).2.2.1.forced_false_reason).isSome = true := by
  have hst := checkStaticImage_state O e
  have htex : fusionScreenTexture O (checkStaticImage O e).2 = fusionScreenTexture O e := by
    unfold fusionScreenTexture
    rw [hst.2.2.2]
  simp only [computeFusionScore, fusionGates]
  rw [htex, hst.1]
  exact applyHardGates_force _ _ _ _ _ h

/-- C3 witness: an engine whose green buffer holds 60 identical samples makes
the static analyzer report `is_static`, and the gate forces the decision. -/
theorem c3_witness :
    (computeFusionScore testOps eSt {} {} false {} {}).1 = false ∧
      ((computeFusionScore testOps eSt {} {} false {} {}).2.2.1.forced_false_reason).isSome =
        true :=
  c3_hard_override_gates testOps eSt {} {} false {} {} (Or.inl ⟨by decide, by decide⟩)

/-- C4: the claim says that after `reset()` the first `process_frame` call
returns `bpm = 0`, `signal_quality = 0`, `is_human = false` for every prior
history and configuration (including POS/CHROM).  The code violates this:
under the POS method `reset()` leaves `rgb_signal_buffer` full, so the very
first frame after `reset()` runs the heart-rate estimator.  This theorem
evaluates the code at the failing input: four frames fill the buffer (with
`buffer_size = 4`), then `reset()`, then one frame — which returns
`bpm = 59` and `signal_quality = 1` instead of zeros. -/
theorem c4_reset_then_first_frame_nonzero :
    (processFrame testOps
        (Engine.reset (runFrames testOps (mkEngine cfg4) framesC).2) frame5).1.bpm = 59 ∧
      (processFrame testOps
        (Engine.reset (runFrames testOps (mkEngine cfg4) framesC).2)
          frame5).1.signal_quality = 1 := by decide

/-- C5: for every engine state (hence every frame sequence) and every frame,
the confidence in the returned `LivenessResult` lies in `[0, 100]`: the fused
score is clamped to that range and then rounded to one decimal. -/
theorem c5_confidence_bounds (O : Ops) (e : Engine) (fr : Frame) :
    0 ≤ (processFrame O e fr).1.confidence ∧ (processFrame O e fr).1.confidence ≤ 100 := by
  have hc : (processFrame O e fr).1.confidence =
      pyRound 1 (fusionConfidence O (frameTemporal O e fr).2 (frameHr O e fr).1
        (checkPhysicsSss O (frameHr O e fr).2.config (some (safeFace fr)))
        (checkChroma O (frameHr O e fr).2.config (some (safeFace fr)) fr.screen_color)
        (frameTemporal O e fr).1
        (checkMoirePattern O (frameTemporal O e fr).2.config (some (safeFace fr)))) := rfl
  rw [hc]
  unfold fusionConfidence
  constructor
  · exact pyRound_nonneg 1 _ (le_max_left _ _)
  · exact pyRound_le_100 _ (max_le (by norm_num) (min_le_left _ _))

/-- C6 counterexample: with `min_bpm = 150`, `max_bpm = 160` the fourth frame
of a warm run returns `bpm = 59`, which is neither 0 nor inside
`[min_bpm, max_bpm]` — the reported BPM is not constrained to the configured
band (the band only feeds the `is_valid` flag). -/
theorem c6_counterexample :
    ¬ (cfgC.min_bpm ≤ ((runFrames testOps (mkEngine cfgC) framesC).1.getLastD {}).bpm ∧
          ((runFrames testOps (mkEngine cfgC) framesC).1.getLastD {}).bpm ≤ cfgC.max_bpm ∨
        ((runFrames testOps (mkEngine cfgC) framesC).1.getLastD {}).bpm = 0) := by decide

/-- C6 (amended): the range invariant `min_bpm ≤ bpm ≤ max_bpm` holds for the
heart-rate result exactly when the estimator flags it valid; `process_frame`
reports the (smoothed) BPM regardless of validity, so an invalid result may
carry a BPM outside the configured band. -/
theorem c6_valid_bpm_in_range (O : Ops) (e : Engine)
    (h : (getHeartRate O e).1.is_valid = true) :
    e.config.min_bpm ≤ (getHeartRate O e).1.bpm ∧
      (getHeartRate O e).1.bpm ≤ e.config.max_bpm := by
  simp only [getHeartRate, hrCore] at h ⊢
  split_ifs at h ⊢ <;> exact hrMain_valid_range O e _ h

/-- C6 witness: a full RGB buffer under the default BPM band produces a valid
result, whose BPM then lies inside the band. -/
theorem c6_witness :
    eW.config.min_bpm ≤ (getHeartRate testOps eW).1.bpm ∧
      (getHeartRate testOps eW).1.bpm ≤ eW.config.max_bpm :=
  c6_valid_bpm_in_range testOps eW (by decide)

/-- C7: with `fps = 30` and `buffer_size = 90`, every one of the first 89
`process_frame` calls on a fresh engine returns `bpm = 0` and
`signal_quality = 0`: heart rate is computed only once the relevant buffer
holds `buffer_size` samples. -/
theorem c7_first_89_frames_warmup (O : Ops) (cfg : PrismConfig)
    (hfps : cfg.fps = 30) (hbuf : cfg.buffer_size = 90)
    (frames : List Frame) (hlen : frames.length ≤ 89) :
    ∀ r ∈ (runFrames O (mkEngine cfg) frames).1, r.bpm = 0 ∧ r.signal_quality = 0 := by
  apply runFrames_warmup
  · show ([] : List ℚ).length + frames.length < cfg.buffer_size
    simp [hbuf]
    omega
  · show ([] : List (ℚ × ℚ × ℚ)).length + frames.length < cfg.buffer_size
    simp [hbuf]
    omega

/-- C7 witness: the first frame on a fresh default-config engine returns
`bpm = 0` and `signal_quality = 0`. -/
theorem c7_witness :
    (processFrame testOps (mkEngine {}) frameA).1.bpm = 0 ∧
      (processFrame testOps (mkEngine {}) frameA).1.signal_quality = 0 := by
  have h := c7_first_89_frames_warmup testOps {} rfl rfl [frameA] (by norm_num)
  exact h _ (by simp [runFrames])

/-- C8 counterexample: BVP extraction is not invariant under a per-channel
affine map with an offset.  With the GREEN method, scales `(1,1,1)` and
offsets `(0,2,0)`, the window with green channel `[1, 3]` yields the
normalised signal `[-1/2, 1/2]`, while the shifted window `[3, 5]` yields
`[-1/4, 1/4]`. -/
theorem c8_counterexample :
    extractBvpFromRgb testOps cfgG (affineRgbWindow 1 1 1 0 2 0 W8) ≠
      extractBvpFromRgb testOps cfgG W8 := by decide

/-- C8 (amended): BVP extraction is invariant under per-channel **positive
rescaling** (no offset) of the RGB window, for every configured method,
provided each channel mean and its rescaled mean exceed the `1e-6`
normalisation guard — mean normalisation cancels scales but not offsets. -/
theorem c8_scale_invariance (O : Ops) (cfg : PrismConfig) (W : List (ℚ × ℚ × ℚ))
    (a1 a2 a3 : ℚ) (h1 : 0 < a1) (h2 : 0 < a2) (h3 : 0 < a3)
    (hr : 1/1000000 < listMean (W.map (fun p => p.1)))
    (hra : 1/1000000 < a1 * listMean (W.map (fun p => p.1)))
    (hg : 1/1000000 < listMean (W.map (fun p => p.2.1)))
    (hga : 1/1000000 < a2 * listMean (W.map (fun p => p.2.1)))
    (hb : 1/1000000 < listMean (W.map (fun p => p.2.2)))
    (hba : 1/1000000 < a3 * listMean (W.map (fun p => p.2.2))) :
    extractBvpFromRgb O cfg (scaleRgbWindow a1 a2 a3 W) = extractBvpFromRgb O cfg W := by
  have e1 : (scaleRgbWindow a1 a2 a3 W).map (fun p => p.1) =
      (W.map (fun p => p.1)).map (fun v => a1 * v) := by
    simp [scaleRgbWindow, List.map_map, Function.comp]
  have e2 : (scaleRgbWindow a1 a2 a3 W).map (fun p => p.2.1) =
      (W.map (fun p => p.2.1)).map (fun v => a2 * v) := by
    simp [scaleRgbWindow, List.map_map, Function.comp]
  have e3 : (scaleRgbWindow a1 a2 a3 W).map (fun p => p.2.2) =
      (W.map (fun p => p.2.2)).map (fun v => a3 * v) := by
    simp [scaleRgbWindow, List.map_map, Function.comp]
  have n1 : normChannel ((scaleRgbWindow a1 a2 a3 W).map (fun p => p.1)) =
      normChannel (W.map (fun p => p.1)) := by
    rw [e1]
    exact normChannel_scale a1 _ h1 hr hra
  have n2 : normChannel ((scaleRgbWindow a1 a2 a3 W).map (fun p => p.2.1)) =
      normChannel (W.map (fun p => p.2.1)) := by
    rw [e2]
    exact normChannel_scale a2 _ h2 hg hga
  have n3 : normChannel ((scaleRgbWindow a1 a2 a3 W).map (fun p => p.2.2)) =
      normChannel (W.map (fun p => p.2.2)) := by
    rw [e3]
    exact normChannel_scale a3 _ h3 hb hba
  unfold extractBvpFromRgb
  rw [n1, n2, n3]

/-- C8 witness: the amended theorem applied to a window with positive channel
means, scaled by 2 in every channel, under the default (POS) configuration. -/
theorem c8_witness :
    extractBvpFromRgb testOps {} (scaleRgbWindow 2 2 2 W8w) =
      extractBvpFromRgb testOps {} W8w :=
  c8_scale_invariance testOps {} W8w 2 2 2 (by norm_num) (by norm_num) (by norm_num)
    (by decide) (by decide) (by decide) (by decide) (by decide) (by decide)

/-- C9: errors are recovered locally and `process_frame` always returns a
result.  A caught exception during ROI extraction degrades to a gate failure
with reason `roi_error` while the call still completes with `bpm = 0` and
`signal_quality = 0`; and every face-image analyzer returns its default-zero
record on the empty image, without touching the engine state. -/
theorem c9_error_recovery (O : Ops) (e : Engine) (fr : Frame) (roi : Img) (sc : String)
    (ts : Option ℚ) (nw : ℚ)
    (h1 : fr.forehead_roi = some roi) (h2 : 0 < roi.size) (h3 : fr.roi_raises = true) :
    (processFrame O e fr).1.details.quality_gate_reason = "roi_error" ∧
      (processFrame O e fr).1.details.quality_gate = false ∧
      (processFrame O e fr).1.bpm = 0 ∧
      (processFrame O e fr).1.signal_quality = 0 ∧
      checkPhysicsSss O e.config (some emptyImg) = {} ∧
      checkChroma O e.config (some emptyImg) sc = false ∧
      checkMoirePattern O e.config (some emptyImg) = {} ∧
      checkTemporalResponse O e (some emptyImg) sc ts nw = ({}, e) ∧
      checkScreenTexture O (some emptyImg) = (false, 0) ∧
      computeQualityFeatures O e (some emptyImg) = ({}, e) := by
  have hroi : frameRoi O e fr = (none, false, "roi_error", frameInit e fr) := by
    simp [frameRoi, roiStep, h1, h2, h3]
  have hhr : frameHr O e fr = ({}, (frameRoi O e fr).2.2.2) := by
    unfold frameHr
    rw [hroi]
    simp
  refine ⟨?_, ?_, ?_, ?_, ?_, ?_, ?_, ?_, ?_, ?_⟩
  · show (frameDetails O e fr).quality_gate_reason = "roi_error"
    unfold frameDetails
    rw [hroi]
  · show (frameDetails O e fr).quality_gate = false
    unfold frameDetails
    rw [hroi]
  · show (frameHr O e fr).1.bpm = 0
    rw [hhr]
  · show (frameHr O e fr).1.signal_quality = 0
    rw [hhr]
  · simp [checkPhysicsSss, emptyImg, Img.size]
  · simp [checkChroma, emptyImg, Img.size]
  · simp [checkMoirePattern, emptyImg, Img.size]
  · simp [checkTemporalResponse, emptyImg, Img.size]
  · simp [checkScreenTexture, emptyImg, Img.size]
  · simp [computeQualityFeatures, emptyImg, Img.size]

/-- C9 witness: the recovery theorem applied to a raising frame on a fresh
engine. -/
theorem c9_witness :
    (processFrame testOps (mkEngine {}) frameErr).1.details.quality_gate_reason =
      "roi_error" :=
  (c9_error_recovery testOps (mkEngine {}) frameErr (roiN 0) "RED" none 0 rfl (by decide)
    rfl).1

/-- C10 (implicit): while `|green_buf| < 60`, the static-image analyzer
returns its default record with `is_static = true`, so fusion applies the
-50 static penalty and the diagnostics report `is_static_image = true`
throughout warmup, while the hard static override gate (which needs
`|green_buf| ≥ 60`) does not fire. -/
theorem c10_warmup_static_defaults (O : Ops) (e : Engine) (rppg : RPPGResult)
    (physics : PhysicsResult) (cp : Bool) (t : TemporalResult) (m : MoireResult)
    (h : e.green_signal_buffer.length < 60) :
    checkStaticImage O e = ({}, e) ∧
      ({} : StaticImageResult).is_static = true ∧
      (computeFusionScore O e rppg physics cp t m).2.2.1.is_static_image = true ∧
      (computeFusionScore O e rppg physics cp t m).2.2.1.static_image_penalty = some (-50) ∧
      (computeFusionScore O e rppg physics cp t m).2.2.1.forced_false_reason ≠
        some "static_image_low_variance" := by
  have hcs := checkStaticImage_warmup O e h
  refine ⟨hcs, rfl, ?_, ?_, ?_⟩
  · show (fusionGates O e rppg physics cp t m).2.is_static_image = true
    unfold fusionGates
    rw [(applyHardGates_static_fields _ _ _ _ _).1]
    unfold fusionScorePreClamp
    rw [(fusionFlickerStep_static_fields _ _).1, (fusionTextureStep_static_fields _ _ _).1,
      (fusionStaticStep_sets _ _ _).1, hcs]
  · show (fusionGates O e rppg physics cp t m).2.static_image_penalty = some (-50)
    unfold fusionGates
    rw [(applyHardGates_static_fields _ _ _ _ _).2]
    unfold fusionScorePreClamp
    rw [(fusionFlickerStep_static_fields _ _).2, (fusionTextureStep_static_fields _ _ _).2]
    apply (fusionStaticStep_sets _ _ _).2
    rw [hcs]
  · show (fusionGates O e rppg physics cp t m).2.forced_false_reason ≠
      some "static_image_low_variance"
    unfold fusionGates
    have hg2 : (checkStaticImage O e).2.green_signal_buffer.length =
        e.green_signal_buffer.length := by rw [hcs]
    have hno := applyHardGates_no_static_reason ((checkStaticImage O e).1.is_static)
      (fusionScreenTexture O (checkStaticImage O e).2).1
      ((checkStaticImage O e).2.green_signal_buffer.length)
      (decide ((40 : ℚ) ≤ fusionConfidence O e rppg physics cp t m))
      ((fusionScorePreClamp O e rppg physics cp t m).2)
      (by rw [hg2]; intro hc; omega)
    rcases hno with hh | hh <;> rw [hh]
    · rw [fusionPreClamp_forced]
      simp
    · simp

/-- C10 witness: the warmup-static theorem applied to a fresh engine (empty
green buffer) with default analyzer results. -/
theorem c10_witness :
    checkStaticImage testOps (mkEngine {}) = ({}, mkEngine {}) ∧
      ({} : StaticImageResult).is_static = true ∧
      (computeFusionScore testOps (mkEngine {}) {} {} false {} {}).2.2.1.is_static_image =
        true ∧
      (computeFusionScore testOps (mkEngine {}) {} {} false {} {}).2.2.1.static_image_penalty =
        some (-50) ∧
      (computeFusionScore testOps (mkEngine {}) {} {} false {} {}).2.2.1.forced_false_reason ≠
        some "static_image_low_variance" :=
  c10_warmup_static_defaults testOps (mkEngine {}) {} {} false {} {} (by decide)
